import Mathlib

/-!
Verification development for the lyrics-downloader pipeline in `src/main.py`.

The Python program is shallowly embedded: the filesystem is an association
list from paths to byte contents, pages fetched over HTTP are abstract
documents supplied by a `Site` environment, and each code path of
`download_lyrics` is mapped to an explicit `FetchOutcome`.  An uncaught
Python exception is modelled by the `FetchOutcome.TaskException` constructor
carrying the name of the Python exception type that the interpreter would
raise on that path.
-/

/-- A filesystem, as an association list from path strings to byte contents
(bytes are `Nat` values below 256).  Models the directory holding the media
library and its sidecar files. -/
def FS : Type := List (String × List Nat)

instance : DecidableEq FS := by
  unfold FS
  infer_instance

deriving instance DecidableEq for Except

/-- Reading a file: the content stored at `p`, if any.  Models
`path.exists()` plus `open(path).read...`. -/
def fsLookup (fs : FS) (p : String) : Option (List Nat) :=
  (List.find? (fun kv => kv.1 == p) fs).map (fun kv => kv.2)

/-- Deleting a file.  Models `Path.unlink` (line 82 of `src/main.py`). -/
def fsErase (fs : FS) (p : String) : FS :=
  List.filter (fun kv => kv.1 != p) fs

/-- Writing a file, replacing previous content.  Models
`open(destination, mode=wb).write(content)` (lines 255-256). -/
def fsWrite (fs : FS) (p : String) (c : List Nat) : FS :=
  (p, c) :: fsErase fs p

/-- The first line of a byte string, newline byte (10) included: the result
of `f.readline()` on a file opened in binary mode (line 78). -/
def firstLine : List Nat → List Nat
  | [] => []
  | b :: rest => if b == 10 then [10] else b :: firstLine rest

/-- Line 80: the first line contains both an opening bracket (byte 91) and a
closing bracket (byte 93). -/
def hasBothBrackets (line : List Nat) : Bool :=
  line.contains 91 && line.contains 93

/-- The validity check applied to an existing sidecar file: its first line
must contain both brackets (lines 76-85).  A sidecar failing this check is
the PresentCorrupt case; one passing it is PresentValid. -/
def sidecarValid (content : List Nat) : Bool :=
  hasBothBrackets (firstLine content)

/-- A media file path, split as `pathlib.Path` exposes it: `stem` is the
name without the final extension and `suffix` is the final extension with
its dot.  `file.with_suffix(".lrc")` is then `stem ++ ".lrc"`. -/
structure MediaPath where
  stem : String
  suffix : String
  deriving DecidableEq

/-- The sidecar path of a media file (line 74). -/
def lrcPath (file : MediaPath) : String :=
  file.stem ++ ".lrc"

/-- The track-number component of the tuple returned by
`read_tags_from_file`.  It is an `int` on the MP3 and FLAC/Opus branches but
the MP4 branch defaults a missing track number to the empty string
(line 200), so the embedded type must admit both. -/
inductive TrackVal where
  | num (n : Nat)
  | str (s : String)
  deriving DecidableEq

/-- The tuple `(artist, album, track, title)` returned by
`read_tags_from_file` on success. -/
structure Track where
  artist : String
  album : String
  track : TrackVal
  title : String
  deriving DecidableEq

/-- The ID3 frames of an MP3 file that `read_tags_from_file` consults.
`none` models an absent frame, for which `getall(...)[0]` raises
`IndexError`. -/
structure Mp3Tags where
  tpe1 : Option String
  talb : Option String
  trck : Option String
  tit2 : Option String
  deriving DecidableEq

/-- What `mutagen.File` hands back for a media file: one of the four
supported tag containers with its relevant fields, an unsupported container
(the wildcard case at line 205), or a raised `mutagen.MutagenError`
(line 208). -/
inductive MutagenFile where
  | mp3 (t : Mp3Tags)
  | flac (artist album tracknumber title : Option String)
  | oggopus (artist album tracknumber title : Option String)
  | mp4 (art alb : Option String) (trkn : Option Nat) (nam : Option String)
  | other
  | loadError
  deriving DecidableEq

/-- Digit run to number, as `int` applied to a decimal digit string. -/
def digitsToNat (ds : List Char) : Nat :=
  ds.foldl (fun acc c => 10 * acc + (c.toNat - 48)) 0

/-- `int(re.match(r"(\d+)(?:/\d+)?", s)[1])` (lines 151 and 174): the match
anchors at the start of `s`, so it succeeds exactly when `s` starts with a
digit, and group 1 is the leading digit run.  `none` models `re.match`
returning `None`, on which the subscript raises an uncaught `TypeError`. -/
def parseTrack (s : String) : Option Nat :=
  let ds := s.data.takeWhile Char.isDigit
  if ds.isEmpty then none else some (digitsToNat ds)

/-- The MP3 branch of `read_tags_from_file` (lines 137-158).  Absent TPE1,
TALB or TRCK frames raise `IndexError` inside a try block that defaults them
to the empty string or 0; a present but non-numeric TRCK raises an uncaught
`TypeError`; an absent TIT2 frame raises an uncaught `IndexError`. -/
def mp3Read (t : Mp3Tags) : Except String (Option Track) :=
  let artist := t.tpe1.getD ""
  let album := t.talb.getD ""
  match t.trck with
  | none =>
    match t.tit2 with
    | none => .error "IndexError"
    | some title => .ok (some ⟨artist, album, .num 0, title⟩)
  | some ts =>
    match parseTrack ts with
    | none => .error "TypeError"
    | some n =>
      match t.tit2 with
      | none => .error "IndexError"
      | some title => .ok (some ⟨artist, album, .num n, title⟩)

/-- The shared FLAC / Ogg Opus branch of `read_tags_from_file`
(lines 160-181).  Absent artist, album or tracknumber keys raise
`KeyError`/`IndexError` inside defaulting try blocks; a non-numeric
tracknumber raises an uncaught `TypeError`; an absent title key raises an
uncaught `KeyError`. -/
def vorbisRead (artist album tracknumber title : Option String) :
    Except String (Option Track) :=
  let a := artist.getD ""
  let al := album.getD ""
  match tracknumber with
  | none =>
    match title with
    | none => .error "KeyError"
    | some t => .ok (some ⟨a, al, .num 0, t⟩)
  | some ts =>
    match parseTrack ts with
    | none => .error "TypeError"
    | some n =>
      match title with
      | none => .error "KeyError"
      | some t => .ok (some ⟨a, al, .num n, t⟩)

/-- The MP4 branch of `read_tags_from_file` (lines 183-204).  A missing
track atom defaults to the empty string (line 200); an absent title atom
raises an uncaught `KeyError`. -/
def mp4Read (art alb : Option String) (trkn : Option Nat) (nam : Option String) :
    Except String (Option Track) :=
  let a := art.getD ""
  let al := alb.getD ""
  let tv := match trkn with
    | none => TrackVal.str ""
    | some n => TrackVal.num n
  match nam with
  | none => .error "KeyError"
  | some t => .ok (some ⟨a, al, tv, t⟩)

/-- `read_tags_from_file` (lines 124-211).  `Except.error e` models an
uncaught Python exception of type `e` escaping the function; `.ok none`
models the Python `None` return for unsupported containers and
`mutagen.MutagenError`; `.ok (some t)` is the tag tuple. -/
def read_tags_from_file : MutagenFile → Except String (Option Track)
  | .mp3 t => mp3Read t
  | .flac a al tn ti => vorbisRead a al tn ti
  | .oggopus a al tn ti => vorbisRead a al tn ti
  | .mp4 a al tn ti => mp4Read a al tn ti
  | .other => .ok none
  | .loadError => .ok none

/-- UTF-8 encoding of a character, the byte sequence Python uses when
percent-encoding a `str`. -/
def utf8Bytes (c : Char) : List Nat :=
  let n := c.toNat
  if n < 128 then [n]
  else if n < 2048 then [192 + n / 64, 128 + n % 64]
  else if n < 65536 then [224 + n / 4096, 128 + (n / 64) % 64, 128 + n % 64]
  else [240 + n / 262144, 128 + (n / 4096) % 64, 128 + (n / 64) % 64, 128 + n % 64]

/-- The bytes `urllib.parse.quote` leaves unescaped by default: ASCII
letters, digits, and the four characters `_`, `.`, `-`, `~`. -/
def isUnreserved (b : Nat) : Bool :=
  (48 ≤ b && b ≤ 57) || (65 ≤ b && b ≤ 90) || (97 ≤ b && b ≤ 122) ||
    b == 95 || b == 46 || b == 45 || b == 126

/-- Uppercase hexadecimal digit, as used by `urllib.parse.quote`. -/
def hexDigit (n : Nat) : Char :=
  if n < 10 then Char.ofNat (48 + n) else Char.ofNat (55 + n)

/-- How `urllib.parse.quote_plus` renders one byte of the UTF-8 encoding: a
space becomes `+`, an unreserved byte stands for itself, anything else
becomes a percent escape with uppercase hex digits. -/
def quoteByte (b : Nat) : List Char :=
  if b == 32 then [Char.ofNat 43]
  else if isUnreserved b then [Char.ofNat b]
  else [Char.ofNat 37, hexDigit (b / 16), hexDigit (b % 16)]

/-- `urllib.parse.quote_plus` with its default arguments, as called at
line 222: percent-encode the UTF-8 bytes of the string, with spaces encoded
as `+`. -/
def quote_plus (s : String) : String :=
  String.mk (List.flatMap (List.flatMap s.data utf8Bytes) quoteByte)

/-- Line 19 of `src/main.py`. -/
def BASE_URL : String := "https://www.lyricsify.com"

/-- Line 20 of `src/main.py`: the semaphore bound. -/
def MAX_SIMULTANEOUS_REQUESTS : Nat := 10

/-- `make_search_url` (lines 214-224). -/
def make_search_url (artist title : String) : String :=
  BASE_URL ++ "/search?q=" ++ quote_plus (artist ++ " " ++ title)

/-- An HTML anchor element as the resolver chain observes it: an optional
`href` attribute, its class list, and its visible text. -/
structure Anchor where
  href : Option String
  classes : List String
  text : String
  deriving DecidableEq

/-- A span element together with the `href` attribute of its enclosing
parent element, if the parent has one.  Only these two observations of a
span are consulted by line 112. -/
structure SpanNode where
  text : String
  parentHref : Option String
  deriving DecidableEq

/-- The search results page, abstracted to its sequence of anchors in
document order. -/
structure SearchPage where
  anchors : List Anchor
  deriving DecidableEq

/-- The lyrics page, abstracted to its sequence of spans in document
order. -/
structure LyricsPage where
  spans : List SpanNode
  deriving DecidableEq

/-- The download page, abstracted to its sequence of anchors in document
order. -/
structure ClickPage where
  anchors : List Anchor
  deriving DecidableEq

/-- Does the pattern occur at the head of the character list? -/
def startsWithSeq : List Char → List Char → Bool
  | [], _ => true
  | _ :: _, [] => false
  | p :: ps, c :: cs => p == c && startsWithSeq ps cs

/-- Does the pattern occur anywhere in the character list? -/
def containsSeq (pat : List Char) : List Char → Bool
  | [] => pat.isEmpty
  | c :: cs => startsWithSeq pat (c :: cs) || containsSeq pat cs

/-- Whether `re.compile(r".*\.lrc").search(s)` succeeds: since the leading
`.*` may be empty, this holds exactly when `.lrc` occurs in `s`. -/
def textHasLrc (s : String) : Bool :=
  containsSeq (String.data ".lrc") s.data

/-- The predicate of `search_soup.find("a", href=True, class_="title")`
(line 100): the anchor has an `href` attribute and carries the `title`
class. -/
def isTitleAnchor (a : Anchor) : Bool :=
  a.href.isSome && a.classes.contains "title"

/-- Line 100 followed by line 105: the `href` of the first matching anchor
of the search page, if any anchor matches. -/
def findTitleAnchor (p : SearchPage) : Option String :=
  (List.find? isTitleAnchor p.anchors).bind (fun a => a.href)

/-- Line 112, first half: `lyrics_soup.find("span", text=re.compile(r".*\.lrc"))`,
the first span whose text mentions an `.lrc` filename. -/
def findLrcSpan (p : LyricsPage) : Option SpanNode :=
  List.find? (fun sp => textHasLrc sp.text) p.spans

/-- Line 117, first half: `lyrics_file_soup.find("a", text="click here")`,
the first anchor whose visible text is exactly `click here`. -/
def findClickHere (p : ClickPage) : Option Anchor :=
  List.find? (fun a => a.text == "click here") p.anchors

/-- The remote site as one fetch task observes it: the three successive
pages its GET requests return, and the raw bytes of the final lyrics-file
download. -/
structure Site where
  searchPage : SearchPage
  lyricsPage : LyricsPage
  clickPage : ClickPage
  fileBytes : List Nat
  deriving DecidableEq

/-- The disposition of one fetch task, one constructor per way
`download_lyrics` can end.  `TaskException e` models an uncaught Python
exception of type `e` escaping the coroutine; every other constructor is a
plain return. -/
inductive FetchOutcome where
  | SkippedLrcFile
  | SkippedExisting
  | AbortedUnsupportedFormat
  | AbortedNoSearchResult
  | Downloaded
  | TaskException (exnName : String)
  deriving DecidableEq

/-- Everything observable about one run of `download_lyrics`: how it ended,
the filesystem it leaves behind, and the URLs of the GET requests it issued,
in order. -/
structure DLResult where
  outcome : FetchOutcome
  fs : FS
  requests : List String
  deriving DecidableEq

/-- `download_file` (lines 242-256): one GET for the resolved URL, then the
body is written directly to the destination path. -/
def download_file (fs : FS) (destination : String) (body : List Nat) : FS :=
  fsWrite fs destination body

/-- Lines 87-121 of `download_lyrics`: tag reading followed by the
network-bound section (the resolver chain and the final download).  `fs` is
the filesystem after the sidecar check of lines 74-85.  Request URLs are
recorded in order; the section is entered only after `read_tags_from_file`
returns a tag tuple. -/
def proceedFetch (file : MediaPath) (load : MutagenFile) (site : Site) (fs : FS) :
    DLResult :=
  match read_tags_from_file load with
  | .error e => ⟨.TaskException e, fs, []⟩
  | .ok none => ⟨.AbortedUnsupportedFormat, fs, []⟩
  | .ok (some tg) =>
    let search_url := make_search_url tg.artist tg.title
    match findTitleAnchor site.searchPage with
    | none => ⟨.AbortedNoSearchResult, fs, [search_url]⟩
    | some lyrics_link =>
      let lyrics_url := BASE_URL ++ lyrics_link
      match findLrcSpan site.lyricsPage with
      | none => ⟨.TaskException "AttributeError", fs, [search_url, lyrics_url]⟩
      | some sp =>
        match sp.parentHref with
        | none => ⟨.TaskException "KeyError", fs, [search_url, lyrics_url]⟩
        | some dl_link =>
          match findClickHere site.clickPage with
          | none =>
            ⟨.TaskException "TypeError", fs, [search_url, lyrics_url, dl_link]⟩
          | some a =>
            match a.href with
            | none =>
              ⟨.TaskException "KeyError", fs, [search_url, lyrics_url, dl_link]⟩
            | some file_link =>
              ⟨.Downloaded, download_file fs (lrcPath file) site.fileBytes,
                [search_url, lyrics_url, dl_link, file_link]⟩

/-- `download_lyrics` (lines 52-121).  Lines 69-71 skip `.lrc` inputs;
lines 74-85 evaluate an existing sidecar, deleting it when its first line
lacks a bracket and returning when it is valid; the rest is
`proceedFetch`. -/
def download_lyrics (file : MediaPath) (load : MutagenFile) (site : Site)
    (fs : FS) : DLResult :=
  if file.suffix == ".lrc" then ⟨.SkippedLrcFile, fs, []⟩
  else
    match fsLookup fs (lrcPath file) with
    | none => proceedFetch file load site fs
    | some content =>
      if !hasBothBrackets (firstLine content) then
        proceedFetch file load site (fsErase fs (lrcPath file))
      else
        ⟨.SkippedExisting, fs, []⟩

/-- `download_file` interrupted after `k` bytes of the body have reached the
destination: since lines 255-256 write directly to the final sidecar path,
an execution cut off mid-write leaves the length-`k` truncated body
there. -/
def download_file_interrupted (fs : FS) (destination : String)
    (body : List Nat) (k : Nat) : FS :=
  fsWrite fs destination (body.take k)

/-- ASCII text as bytes, for concrete sidecar contents. -/
def asciiBytes (s : String) : List Nat :=
  s.data.map Char.toNat

/-- The inputs of one fetch task: its media file, what `mutagen.File` gives
for it, the site as that task observes it, and the filesystem state it
reads. -/
structure TaskInput where
  file : MediaPath
  load : MutagenFile
  site : Site
  fs : FS

/-- The disposition of one scheduled task. -/
def taskOutcome (t : TaskInput) : FetchOutcome :=
  (download_lyrics t.file t.load t.site t.fs).outcome

/-- `asyncio.gather` with its default `return_exceptions=False`, applied to
the finished tasks: if any task ended in an uncaught exception, that
exception is re-raised to the caller of `download_all_lyrics` and the run
fails; otherwise the list of results is returned.  (In `src/main.py` each
coroutine returns `None`; the embedding returns the outcome list, which is
what the spec calls the aggregated report.) -/
def gatherOutcomes : List FetchOutcome → Except String (List FetchOutcome)
  | [] => .ok []
  | o :: rest =>
    match o with
    | .TaskException e => .error e
    | _ =>
      match gatherOutcomes rest with
      | .error e => .error e
      | .ok os => .ok (o :: os)

/-- `download_all_lyrics` (lines 30-49): one task per discovered path, all
awaited through `asyncio.gather`. -/
def download_all_lyrics (tasks : List TaskInput) : Except String (List FetchOutcome) :=
  gatherOutcomes (tasks.map taskOutcome)

/-- The phase of one task with respect to the admission gate of
`download_lyrics`: `pre` before line 93 (sidecar evaluation and tag
reading), `net` inside the `async with semaphore` block (the HTTP session
scope, lines 93-119), `done` after the task returned or raised. -/
inductive Phase where
  | pre
  | net
  | done
  deriving DecidableEq

/-- How many tasks are inside the network-bound section. -/
def phaseWeight : Phase → Nat
  | .net => 1
  | _ => 0

/-- The number of tasks currently in the `net` phase. -/
def countNet : List Phase → Nat
  | [] => 0
  | p :: rest => phaseWeight p + countNet rest

/-- The scheduler state: the phase of each task created by
`download_all_lyrics`, and the free-permit count of the shared
`asyncio.Semaphore`. -/
structure SchedState where
  phases : List Phase
  avail : Nat

/-- One scheduling step, modelled from `download_lyrics` and the semantics
of `asyncio.Semaphore`: a `pre` task may return early (skip paths and tag
failures, lines 69-91) without touching the semaphore; a `pre` task may
enter the session block only by acquiring a free permit (line 93); a `net`
task leaving the block, normally or by exception, releases its permit. -/
inductive SchedStep : SchedState → SchedState → Prop where
  | earlyReturn (s : SchedState) (i : Nat)
      (h : s.phases[i]? = some Phase.pre) :
      SchedStep s ⟨s.phases.set i Phase.done, s.avail⟩
  | acquire (s : SchedState) (i : Nat)
      (h : s.phases[i]? = some Phase.pre) (ha : 0 < s.avail) :
      SchedStep s ⟨s.phases.set i Phase.net, s.avail - 1⟩
  | release (s : SchedState) (i : Nat)
      (h : s.phases[i]? = some Phase.net) :
      SchedStep s ⟨s.phases.set i Phase.done, s.avail + 1⟩

/-- The initial state of a run over `n` files with concurrency bound `N`:
every task is before the gate and all `N` permits are free (lines 41-47). -/
def initState (n N : Nat) : SchedState :=
  ⟨List.replicate n Phase.pre, N⟩

/-- The states a run over `n` files with bound `N` can reach. -/
inductive SchedReach (n N : Nat) : SchedState → Prop where
  | init : SchedReach n N (initState n N)
  | step {s s' : SchedState} (h : SchedReach n N s) (hs : SchedStep s s') :
      SchedReach n N s'


/-- A media file used in concrete runs. -/
def sampleFile : MediaPath := ⟨"song", ".mp3"⟩

/-- A fully populated ID3 frame set. -/
def fullTags : Mp3Tags :=
  ⟨some "Daft Punk", some "Discovery", some "1", some "One More Time"⟩

/-- A site on which every hop of the resolver chain succeeds and the final
download is a well-formed synchronized-lyrics file. -/
def siteOK : Site :=
  ⟨⟨[⟨some "/lyric/daft-punk-one-more-time", ["title"], "One More Time"⟩]⟩,
   ⟨[⟨"one-more-time.lrc", some "/download/42"⟩]⟩,
   ⟨[⟨some "https://dl.lyricsify.com/42.lrc", [], "click here"⟩]⟩,
   asciiBytes "[00:01.23]One more time"⟩

/-- The same site, but the final download body has no bracketed timestamp
on its first line. -/
def siteGarbage : Site :=
  { siteOK with fileBytes := asciiBytes "oops no timestamps" }

/-- The same site, but the lyrics page has no span mentioning an `.lrc`
filename. -/
def siteNoSpan : Site :=
  { siteOK with lyricsPage := ⟨[⟨"no lyrics here", none⟩]⟩ }

/-- The same site, but the download page has no anchor reading
`click here`. -/
def siteNoClick : Site :=
  { siteOK with clickPage := ⟨[⟨some "https://dl.lyricsify.com/42.lrc", [], "elsewhere"⟩]⟩ }

/-- A task over a file whose container mutagen does not support. -/
def taskUnsupported : TaskInput := ⟨⟨"a", ".xyz"⟩, .other, siteOK, []⟩

/-- A task over an MP3 file whose TIT2 (title) frame is absent. -/
def taskMissingTitle : TaskInput :=
  ⟨⟨"b", ".mp3"⟩, .mp3 ⟨some "Daft Punk", none, none, none⟩, siteOK, []⟩


/-! ### Helper lemmas -/

lemma fsLookup_fsWrite (fs : FS) (p : String) (c : List Nat) :
    fsLookup (fsWrite fs p c) p = some c := by
  simp [fsLookup, fsWrite, List.find?]

lemma fsLookup_fsErase (fs : FS) (p : String) :
    fsLookup (fsErase fs p) p = none := by
  unfold fsLookup fsErase
  have hfind : List.find? (fun kv => kv.1 == p)
      (List.filter (fun kv => kv.1 != p) fs) = none := by
    rw [List.find?_eq_none]
    intro kv hkv
    rcases List.mem_filter.mp hkv with ⟨_, hne⟩
    simpa using hne
  rw [hfind]
  rfl

lemma proceedFetch_cases (file : MediaPath) (load : MutagenFile) (site : Site)
    (fs : FS) :
    (proceedFetch file load site fs).outcome = .Downloaded ∧
      (proceedFetch file load site fs).fs = fsWrite fs (lrcPath file) site.fileBytes
    ∨ (proceedFetch file load site fs).outcome ≠ .Downloaded ∧
      (proceedFetch file load site fs).fs = fs := by
  unfold proceedFetch
  repeat' split
  all_goals simp [download_file]

lemma proceedFetch_not_skip (file : MediaPath) (load : MutagenFile) (site : Site)
    (fs : FS) :
    (proceedFetch file load site fs).outcome ≠ .SkippedExisting ∧
    (proceedFetch file load site fs).outcome ≠ .SkippedLrcFile := by
  unfold proceedFetch
  repeat' split
  all_goals simp

lemma proceedFetch_requests_of_tags_fail (file : MediaPath) (load : MutagenFile)
    (site : Site) (fs : FS)
    (h : ∀ tg, read_tags_from_file load ≠ .ok (some tg)) :
    (proceedFetch file load site fs).requests = [] := by
  unfold proceedFetch
  cases hr : read_tags_from_file load with
  | error e => simp
  | ok o =>
    cases o with
    | none => simp
    | some tg => exact absurd hr (h tg)

lemma proceedFetch_tags_error (file : MediaPath) (load : MutagenFile)
    (site : Site) (fs : FS) (e : String)
    (hr : read_tags_from_file load = .error e) :
    proceedFetch file load site fs = ⟨.TaskException e, fs, []⟩ := by
  unfold proceedFetch
  simp [hr]

lemma proceedFetch_noSearchResult (file : MediaPath) (load : MutagenFile)
    (site : Site) (fs : FS) (tg : Track)
    (hr : read_tags_from_file load = .ok (some tg))
    (hn : findTitleAnchor site.searchPage = none) :
    proceedFetch file load site fs
      = ⟨.AbortedNoSearchResult, fs, [make_search_url tg.artist tg.title]⟩ := by
  unfold proceedFetch
  simp [hr, hn]

lemma findTitleAnchor_eq_none (p : SearchPage)
    (h : ∀ a ∈ p.anchors, a.classes.contains "title" = false) :
    findTitleAnchor p = none := by
  unfold findTitleAnchor
  rw [List.find?_eq_none.mpr]
  · rfl
  · intro a ha
    simp only [isTitleAnchor, Bool.and_eq_true, not_and]
    intro _
    simpa using h a ha

lemma findTitleAnchor_first (pre : List Anchor) (a : Anchor) (post : List Anchor)
    (ha : isTitleAnchor a = true)
    (hpre : ∀ b ∈ pre, isTitleAnchor b = false) :
    findTitleAnchor ⟨pre ++ a :: post⟩ = a.href := by
  unfold findTitleAnchor
  have hfind : List.find? isTitleAnchor (pre ++ a :: post) = some a := by
    induction pre with
    | nil => simp [List.find?_cons_of_pos, ha]
    | cons b bs ih =>
      have hb := hpre b (by simp)
      rw [List.cons_append, List.find?_cons_of_neg _ (by simp [hb])]
      exact ih (fun x hx => hpre x (by simp [hx]))
  simp [hfind]

lemma download_lyrics_skip (file : MediaPath) (load : MutagenFile) (site : Site)
    (fs : FS) (content : List Nat)
    (hsuf : file.suffix ≠ ".lrc")
    (hl : fsLookup fs (lrcPath file) = some content)
    (hv : sidecarValid content = true) :
    download_lyrics file load site fs = ⟨.SkippedExisting, fs, []⟩ := by
  have hs : (file.suffix == ".lrc") = false := by simp [hsuf]
  unfold sidecarValid at hv
  simp [download_lyrics, hs, hl, hv]

lemma download_lyrics_corrupt (file : MediaPath) (load : MutagenFile) (site : Site)
    (fs : FS) (content : List Nat)
    (hsuf : file.suffix ≠ ".lrc")
    (hl : fsLookup fs (lrcPath file) = some content)
    (hv : sidecarValid content = false) :
    download_lyrics file load site fs
      = proceedFetch file load site (fsErase fs (lrcPath file)) := by
  have hs : (file.suffix == ".lrc") = false := by simp [hsuf]
  unfold sidecarValid at hv
  simp [download_lyrics, hs, hl, hv]

lemma download_lyrics_absent (file : MediaPath) (load : MutagenFile) (site : Site)
    (fs : FS)
    (hsuf : file.suffix ≠ ".lrc")
    (hl : fsLookup fs (lrcPath file) = none) :
    download_lyrics file load site fs = proceedFetch file load site fs := by
  have hs : (file.suffix == ".lrc") = false := by simp [hsuf]
  simp [download_lyrics, hs, hl]

lemma download_lyrics_lookup_of_downloaded (file : MediaPath) (load : MutagenFile)
    (site : Site) (fs : FS)
    (hd : (download_lyrics file load site fs).outcome = .Downloaded) :
    fsLookup (download_lyrics file load site fs).fs (lrcPath file)
      = some site.fileBytes := by
  by_cases hsuf : file.suffix = ".lrc"
  · have : download_lyrics file load site fs = ⟨.SkippedLrcFile, fs, []⟩ := by
      simp [download_lyrics, hsuf]
    rw [this] at hd
    exact absurd hd (by simp)
  · cases hl : fsLookup fs (lrcPath file) with
    | none =>
      rw [download_lyrics_absent file load site fs hsuf hl] at hd ⊢
      rcases proceedFetch_cases file load site fs with ⟨_, hfs⟩ | ⟨hne, _⟩
      · rw [hfs, fsLookup_fsWrite]
      · exact absurd hd hne
    | some content =>
      cases hv : sidecarValid content with
      | false =>
        rw [download_lyrics_corrupt file load site fs content hsuf hl hv] at hd ⊢
        rcases proceedFetch_cases file load site (fsErase fs (lrcPath file)) with
          ⟨_, hfs⟩ | ⟨hne, _⟩
        · rw [hfs, fsLookup_fsWrite]
        · exact absurd hd hne
      | true =>
        rw [download_lyrics_skip file load site fs content hsuf hl hv] at hd
        exact absurd hd (by simp)

lemma gatherOutcomes_ok (os : List FetchOutcome)
    (h : ∀ o ∈ os, ∀ e, o ≠ .TaskException e) :
    gatherOutcomes os = .ok os := by
  induction os with
  | nil => rfl
  | cons o rest ih =>
    have hrest := ih (fun x hx e => h x (by simp [hx]) e)
    cases o
    case TaskException e => exact absurd rfl (h _ (by simp) e)
    all_goals simp [gatherOutcomes, hrest]

lemma gatherOutcomes_error (os : List FetchOutcome) (e : String)
    (h : FetchOutcome.TaskException e ∈ os) :
    ∃ e', gatherOutcomes os = .error e' := by
  induction os with
  | nil => simp at h
  | cons o rest ih =>
    by_cases ho : o = FetchOutcome.TaskException e
    · subst ho
      exact ⟨e, rfl⟩
    · have hmem : FetchOutcome.TaskException e ∈ rest := by
        rcases List.mem_cons.mp h with h1 | h1
        · exact absurd h1.symm ho
        · exact h1
      rcases ih hmem with ⟨e', he'⟩
      cases o
      all_goals first
        | exact ⟨_, rfl⟩
        | exact ⟨e', by simp [gatherOutcomes, he']⟩

lemma countNet_replicate (n : Nat) :
    countNet (List.replicate n Phase.pre) = 0 := by
  induction n with
  | zero => rfl
  | succ k ih => simp [List.replicate, countNet, phaseWeight, ih]

lemma countNet_set (l : List Phase) (i : Nat) (a v : Phase)
    (h : l[i]? = some a) :
    countNet (l.set i v) + phaseWeight a = countNet l + phaseWeight v := by
  induction l generalizing i with
  | nil => simp at h
  | cons hd tl ih =>
    cases i with
    | zero =>
      simp at h
      subst h
      simp [countNet]
      omega
    | succ j =>
      simp at h
      have := ih j h
      simp [countNet]
      omega

lemma sched_inv {n N : Nat} {s : SchedState} (h : SchedReach n N s) :
    countNet s.phases + s.avail = N := by
  induction h with
  | init => simp [initState, countNet_replicate]
  | @step s s' hr hs ih =>
    cases hs with
    | earlyReturn i hi =>
      have := countNet_set s.phases i Phase.pre Phase.done hi
      simp [phaseWeight] at this ⊢
      omega
    | acquire i hi ha =>
      have := countNet_set s.phases i Phase.pre Phase.net hi
      simp [phaseWeight] at this ⊢
      omega
    | release i hi =>
      have := countNet_set s.phases i Phase.net Phase.done hi
      simp [phaseWeight] at this ⊢
      omega

lemma proceedFetch_noSpan (file : MediaPath) (load : MutagenFile) (site : Site)
    (fs : FS) (tg : Track) (href : String)
    (hr : read_tags_from_file load = .ok (some tg))
    (hf : findTitleAnchor site.searchPage = some href)
    (hsp : findLrcSpan site.lyricsPage = none) :
    proceedFetch file load site fs
      = ⟨.TaskException "AttributeError", fs,
         [make_search_url tg.artist tg.title, BASE_URL ++ href]⟩ := by
  unfold proceedFetch
  simp [hr, hf, hsp]

lemma proceedFetch_noClickHere (file : MediaPath) (load : MutagenFile)
    (site : Site) (fs : FS) (tg : Track) (href : String) (sp : SpanNode)
    (dlink : String)
    (hr : read_tags_from_file load = .ok (some tg))
    (hf : findTitleAnchor site.searchPage = some href)
    (hsp : findLrcSpan site.lyricsPage = some sp)
    (hph : sp.parentHref = some dlink)
    (hc : findClickHere site.clickPage = none) :
    proceedFetch file load site fs
      = ⟨.TaskException "TypeError", fs,
         [make_search_url tg.artist tg.title, BASE_URL ++ href, dlink]⟩ := by
  unfold proceedFetch
  simp [hr, hf, hsp, hph, hc]

lemma download_lyrics_requests_of_tags_fail (file : MediaPath)
    (load : MutagenFile) (site : Site) (fs : FS)
    (h : ∀ tg, read_tags_from_file load ≠ .ok (some tg)) :
    (download_lyrics file load site fs).requests = [] := by
  by_cases hsuf : file.suffix = ".lrc"
  · simp [download_lyrics, hsuf]
  · cases hl : fsLookup fs (lrcPath file) with
    | none =>
      rw [download_lyrics_absent file load site fs hsuf hl]
      exact proceedFetch_requests_of_tags_fail file load site fs h
    | some content =>
      cases hv : sidecarValid content with
      | true =>
        rw [download_lyrics_skip file load site fs content hsuf hl hv]
      | false =>
        rw [download_lyrics_corrupt file load site fs content hsuf hl hv]
        exact proceedFetch_requests_of_tags_fail file load site _ h

/-! ### Claim theorems -/

/-- C1, counterexample to the second half of the claim: a first run whose
fetch succeeds (outcome `Downloaded`) but whose downloaded body has no
bracketed timestamp on its first line leaves a sidecar that the second run
classifies corrupt, so the second run issues network requests. -/
theorem counterexample_C1 :
    (download_lyrics sampleFile (.mp3 fullTags) siteGarbage []).outcome
      = .Downloaded ∧
    (download_lyrics sampleFile (.mp3 fullTags) siteGarbage
        ((download_lyrics sampleFile (.mp3 fullTags) siteGarbage []).fs)).requests
      ≠ [] := by
  decide

/-- C1, as amended: a PresentValid sidecar makes the task return
`SkippedExisting` with the filesystem unchanged and no requests issued; and
after a first run whose fetch succeeded, the second run issues zero network
requests provided the downloaded body itself passes the first-line bracket
check. -/
theorem claim_C1 :
    (∀ (file : MediaPath) (load : MutagenFile) (site : Site) (fs : FS)
        (content : List Nat),
        file.suffix ≠ ".lrc" →
        fsLookup fs (lrcPath file) = some content →
        sidecarValid content = true →
        download_lyrics file load site fs = ⟨.SkippedExisting, fs, []⟩) ∧
    (∀ (file : MediaPath) (load : MutagenFile) (site : Site) (fs : FS),
        file.suffix ≠ ".lrc" →
        (download_lyrics file load site fs).outcome = .Downloaded →
        sidecarValid site.fileBytes = true →
        (download_lyrics file load site
            ((download_lyrics file load site fs).fs)).requests = []) := by
  constructor
  · exact fun file load site fs content h1 h2 h3 =>
      download_lyrics_skip file load site fs content h1 h2 h3
  · intro file load site fs h1 h2 h3
    have hlk := download_lyrics_lookup_of_downloaded file load site fs h2
    rw [download_lyrics_skip file load site _ site.fileBytes h1 hlk h3]

/-- C1 witness: the two parts of the amended claim at concrete inputs: a
valid existing sidecar is skipped untouched, and a successful first run over
an empty directory against a well-formed site is followed by a request-free
second run. -/
theorem claim_C1_witness :
    download_lyrics sampleFile .other siteOK
        [("song.lrc", asciiBytes "[00:01.23]One more time")]
      = ⟨.SkippedExisting, [("song.lrc", asciiBytes "[00:01.23]One more time")], []⟩ ∧
    (download_lyrics sampleFile (.mp3 fullTags) siteOK
        ((download_lyrics sampleFile (.mp3 fullTags) siteOK []).fs)).requests = [] :=
  ⟨claim_C1.1 sampleFile .other siteOK
      [("song.lrc", asciiBytes "[00:01.23]One more time")]
      (asciiBytes "[00:01.23]One more time") (by decide) (by decide) (by decide),
   claim_C1.2 sampleFile (.mp3 fullTags) siteOK [] (by decide) (by decide) (by decide)⟩

/-- C2: when a sidecar exists, only the first line decides its
classification; a first line lacking either bracket makes the evaluation
itself delete the file (the lookup at the sidecar path then fails) and the
task continue into the fetch phase on the cleaned filesystem, while a first
line with both brackets leaves everything untouched. -/
theorem claim_C2 :
    ∀ (file : MediaPath) (load : MutagenFile) (site : Site) (fs : FS)
      (content : List Nat),
      file.suffix ≠ ".lrc" →
      fsLookup fs (lrcPath file) = some content →
      ((sidecarValid content = false →
          download_lyrics file load site fs
            = proceedFetch file load site (fsErase fs (lrcPath file)) ∧
          fsLookup (fsErase fs (lrcPath file)) (lrcPath file) = none) ∧
       (sidecarValid content = true →
          download_lyrics file load site fs = ⟨.SkippedExisting, fs, []⟩) ∧
       (∀ c' : List Nat, firstLine c' = firstLine content →
          sidecarValid c' = sidecarValid content)) := by
  intro file load site fs content hsuf hl
  refine ⟨fun hv => ⟨?_, ?_⟩, fun hv => ?_, fun c' hc => ?_⟩
  · exact download_lyrics_corrupt file load site fs content hsuf hl hv
  · exact fsLookup_fsErase fs (lrcPath file)
  · exact download_lyrics_skip file load site fs content hsuf hl hv
  · unfold sidecarValid
    rw [hc]

/-- C2 witness: a sidecar whose first line is `not a lyrics line` is deleted
and the task proceeds to fetch on the cleaned directory; one whose first
line is `[00:01.23]Hello` is left untouched. -/
theorem claim_C2_witness :
    (download_lyrics sampleFile .other siteOK
        [("song.lrc", asciiBytes "not a lyrics line")]
      = proceedFetch sampleFile .other siteOK
          (fsErase [("song.lrc", asciiBytes "not a lyrics line")] (lrcPath sampleFile)) ∧
     fsLookup (fsErase [("song.lrc", asciiBytes "not a lyrics line")] (lrcPath sampleFile))
        (lrcPath sampleFile) = none) ∧
    download_lyrics sampleFile .other siteOK
        [("song.lrc", asciiBytes "[00:01.23]Hello")]
      = ⟨.SkippedExisting, [("song.lrc", asciiBytes "[00:01.23]Hello")], []⟩ :=
  ⟨(claim_C2 sampleFile .other siteOK
      [("song.lrc", asciiBytes "not a lyrics line")]
      (asciiBytes "not a lyrics line") (by decide) (by decide)).1 (by decide),
   (claim_C2 sampleFile .other siteOK
      [("song.lrc", asciiBytes "[00:01.23]Hello")]
      (asciiBytes "[00:01.23]Hello") (by decide) (by decide)).2.1 (by decide)⟩

/-- C3, counterexample: the code URL-encodes with `urllib.parse.quote_plus`,
which renders spaces as `+`, so the search URL for Daft Punk / One More Time
is not the `%20`-encoded string the claim names. -/
theorem counterexample_C3 :
    make_search_url "Daft Punk" "One More Time"
      ≠ "https://www.lyricsify.com/search?q=Daft%20Punk%20One%20More%20Time" := by
  decide

/-- C3, as amended: the search URL is the fixed endpoint followed by the
`quote_plus` encoding of `artist ++ " " ++ title` as one query term, in
which spaces become `+`; for Daft Punk / One More Time this yields
`?q=Daft+Punk+One+More+Time`. -/
theorem claim_C3 :
    make_search_url "Daft Punk" "One More Time"
      = "https://www.lyricsify.com/search?q=Daft+Punk+One+More+Time" ∧
    ∀ artist title : String,
      make_search_url artist title
        = BASE_URL ++ "/search?q=" ++ quote_plus (artist ++ " " ++ title) :=
  ⟨by decide, fun _ _ => rfl⟩

/-- C4, counterexample: an MP3 file whose artist frame is absent but whose
title is present is not aborted — `read_tags_from_file` substitutes the
empty string for the artist and the task runs the whole fetch chain to a
successful download. -/
theorem counterexample_C4 :
    read_tags_from_file
        (.mp3 ⟨none, some "Discovery", some "1", some "One More Time"⟩)
      = .ok (some ⟨"", "Discovery", .num 1, "One More Time"⟩) ∧
    (download_lyrics sampleFile
        (.mp3 ⟨none, some "Discovery", some "1", some "One More Time"⟩)
        siteOK []).outcome = .Downloaded := by
  decide

/-- C4, as amended: a missing artist is defaulted to the empty string, like
album and track number, and the task proceeds; only a missing title aborts
the task, by an uncaught `IndexError` escaping `read_tags_from_file`
(modelled as `TaskException`), after which no sidecar file is on disk and no
request was issued. -/
theorem claim_C4 :
    (∀ (talb : Option String) (title : String),
        read_tags_from_file (.mp3 ⟨none, talb, none, some title⟩)
          = .ok (some ⟨"", talb.getD "", .num 0, title⟩)) ∧
    (∀ tpe1 talb : Option String,
        read_tags_from_file (.mp3 ⟨tpe1, talb, none, none⟩)
          = .error "IndexError") ∧
    (∀ (file : MediaPath) (load : MutagenFile) (site : Site) (fs : FS)
        (e : String),
        file.suffix ≠ ".lrc" →
        fsLookup fs (lrcPath file) = none →
        read_tags_from_file load = .error e →
        download_lyrics file load site fs = ⟨.TaskException e, fs, []⟩ ∧
        fsLookup (download_lyrics file load site fs).fs (lrcPath file) = none) := by
  refine ⟨fun talb title => rfl, fun tpe1 talb => rfl, ?_⟩
  intro file load site fs e hsuf hl hr
  have heq : download_lyrics file load site fs = ⟨.TaskException e, fs, []⟩ := by
    rw [download_lyrics_absent file load site fs hsuf hl]
    exact proceedFetch_tags_error file load site fs e hr
  refine ⟨heq, ?_⟩
  rw [heq]
  exact hl

/-- C4 witness: the amended claim at concrete inputs — an artist-less frame
set defaults, a title-less one raises, and a task over a title-less MP3 in
an empty directory ends as an exception leaving no sidecar. -/
theorem claim_C4_witness :
    read_tags_from_file (.mp3 ⟨none, some "Discovery", none, some "One More Time"⟩)
      = .ok (some ⟨"", "Discovery", .num 0, "One More Time"⟩) ∧
    read_tags_from_file (.mp3 ⟨some "Daft Punk", none, none, none⟩)
      = .error "IndexError" ∧
    download_lyrics ⟨"b", ".mp3"⟩ (.mp3 ⟨some "Daft Punk", none, none, none⟩)
        siteOK [] = ⟨.TaskException "IndexError", [], []⟩ :=
  ⟨claim_C4.1 (some "Discovery") "One More Time",
   claim_C4.2.1 (some "Daft Punk") none,
   (claim_C4.2.2 ⟨"b", ".mp3"⟩ (.mp3 ⟨some "Daft Punk", none, none, none⟩)
      siteOK [] "IndexError" (by decide) (by decide) (by decide)).1⟩

/-- C5: when the search page has no anchor carrying the `title` class, the
task ends with `AbortedNoSearchResult` having issued exactly the one search
request and nothing further; and when matching anchors exist, the link of
the first matching anchor on the page is the one taken. -/
theorem claim_C5 :
    (∀ (file : MediaPath) (load : MutagenFile) (site : Site) (fs : FS)
        (tg : Track),
        file.suffix ≠ ".lrc" →
        fsLookup fs (lrcPath file) = none →
        read_tags_from_file load = .ok (some tg) →
        (∀ a ∈ site.searchPage.anchors, a.classes.contains "title" = false) →
        download_lyrics file load site fs
          = ⟨.AbortedNoSearchResult, fs, [make_search_url tg.artist tg.title]⟩) ∧
    (∀ (pre : List Anchor) (a : Anchor) (post : List Anchor),
        isTitleAnchor a = true →
        (∀ b ∈ pre, isTitleAnchor b = false) →
        findTitleAnchor ⟨pre ++ a :: post⟩ = a.href) := by
  constructor
  · intro file load site fs tg hsuf hl hr hno
    rw [download_lyrics_absent file load site fs hsuf hl]
    exact proceedFetch_noSearchResult file load site fs tg hr
      (findTitleAnchor_eq_none site.searchPage hno)
  · exact findTitleAnchor_first

/-- C5 witness: a search page whose only anchors lack the `title` class
aborts after the single search request, and a page with a decoy anchor ahead
of the first matching one resolves to the matching link. -/
theorem claim_C5_witness :
    download_lyrics sampleFile (.mp3 fullTags)
        { siteOK with searchPage := ⟨[⟨some "/ad", ["banner"], "ad"⟩]⟩ } []
      = ⟨.AbortedNoSearchResult, [],
         [make_search_url "Daft Punk" "One More Time"]⟩ ∧
    findTitleAnchor ⟨[⟨none, ["title"], "no link"⟩] ++
        ⟨some "/lyric/hit", ["title"], "hit"⟩ :: [⟨some "/lyric/b", ["title"], "b"⟩]⟩
      = some "/lyric/hit" :=
  ⟨claim_C5.1 sampleFile (.mp3 fullTags)
      { siteOK with searchPage := ⟨[⟨some "/ad", ["banner"], "ad"⟩]⟩ } []
      ⟨"Daft Punk", "Discovery", .num 1, "One More Time"⟩
      (by decide) (by decide) (by decide) (by decide),
   claim_C5.2 [⟨none, ["title"], "no link"⟩] ⟨some "/lyric/hit", ["title"], "hit"⟩
      [⟨some "/lyric/b", ["title"], "b"⟩] (by decide) (by decide)⟩

/-- C6, counterexample: with no `.lrc` text node on the lyrics page the task
does not end as a recorded non-fatal outcome — it raises an uncaught
`AttributeError` (`None.parent` at line 112); with no `click here` anchor on
the download page it raises an uncaught `TypeError` (`None["href"]` at
line 117). -/
theorem counterexample_C6 :
    (download_lyrics sampleFile (.mp3 fullTags) siteNoSpan []).outcome
      = .TaskException "AttributeError" ∧
    (download_lyrics sampleFile (.mp3 fullTags) siteNoClick []).outcome
      = .TaskException "TypeError" := by
  decide

/-- C6, as amended: a lyrics page without a text node matching `*.lrc` makes
the task raise an uncaught `AttributeError` after its two requests, and a
download page without a `click here` anchor makes it raise an uncaught
`TypeError` after its three requests — in both cases the task terminates as
an escaping exception, not a recorded per-file outcome. -/
theorem claim_C6 :
    (∀ (file : MediaPath) (load : MutagenFile) (site : Site) (fs : FS)
        (tg : Track) (href : String),
        file.suffix ≠ ".lrc" →
        fsLookup fs (lrcPath file) = none →
        read_tags_from_file load = .ok (some tg) →
        findTitleAnchor site.searchPage = some href →
        findLrcSpan site.lyricsPage = none →
        download_lyrics file load site fs
          = ⟨.TaskException "AttributeError", fs,
             [make_search_url tg.artist tg.title, BASE_URL ++ href]⟩) ∧
    (∀ (file : MediaPath) (load : MutagenFile) (site : Site) (fs : FS)
        (tg : Track) (href : String) (sp : SpanNode) (dlink : String),
        file.suffix ≠ ".lrc" →
        fsLookup fs (lrcPath file) = none →
        read_tags_from_file load = .ok (some tg) →
        findTitleAnchor site.searchPage = some href →
        findLrcSpan site.lyricsPage = some sp →
        sp.parentHref = some dlink →
        findClickHere site.clickPage = none →
        download_lyrics file load site fs
          = ⟨.TaskException "TypeError", fs,
             [make_search_url tg.artist tg.title, BASE_URL ++ href, dlink]⟩) := by
  constructor
  · intro file load site fs tg href hsuf hl hr hf hsp
    rw [download_lyrics_absent file load site fs hsuf hl]
    exact proceedFetch_noSpan file load site fs tg href hr hf hsp
  · intro file load site fs tg href sp dlink hsuf hl hr hf hsp hph hc
    rw [download_lyrics_absent file load site fs hsuf hl]
    exact proceedFetch_noClickHere file load site fs tg href sp dlink hr hf hsp hph hc

/-- C6 witness: the amended claim at the two concrete sites of the
counterexample, with the full request lists. -/
theorem claim_C6_witness :
    download_lyrics sampleFile (.mp3 fullTags) siteNoSpan []
      = ⟨.TaskException "AttributeError", [],
         [make_search_url "Daft Punk" "One More Time",
          BASE_URL ++ "/lyric/daft-punk-one-more-time"]⟩ ∧
    download_lyrics sampleFile (.mp3 fullTags) siteNoClick []
      = ⟨.TaskException "TypeError", [],
         [make_search_url "Daft Punk" "One More Time",
          BASE_URL ++ "/lyric/daft-punk-one-more-time", "/download/42"]⟩ :=
  ⟨claim_C6.1 sampleFile (.mp3 fullTags) siteNoSpan []
      ⟨"Daft Punk", "Discovery", .num 1, "One More Time"⟩
      "/lyric/daft-punk-one-more-time"
      (by decide) (by decide) (by decide) (by decide) (by decide),
   claim_C6.2 sampleFile (.mp3 fullTags) siteNoClick []
      ⟨"Daft Punk", "Discovery", .num 1, "One More Time"⟩
      "/lyric/daft-punk-one-more-time" ⟨"one-more-time.lrc", some "/download/42"⟩
      "/download/42"
      (by decide) (by decide) (by decide) (by decide) (by decide) (by decide)
      (by decide)⟩

/-- C7, counterexample: a run of two tasks in which only the second fails
(its title frame is absent, so it raises an uncaught `IndexError`) does not
return the aggregated outcome list — `asyncio.gather` re-raises the
exception and the whole run fails, the healthy first task's outcome
included. -/
theorem counterexample_C7 :
    download_all_lyrics [taskUnsupported, taskMissingTitle]
      = .error "IndexError" := by
  decide

/-- C7, as amended: one task is run per path; when no task ends in an
uncaught exception the scheduler returns the aggregated outcome list, one
outcome per path, and early-return aborts indeed cannot fail the run; but a
task that ends in an uncaught exception is not swallowed at the task
boundary — it propagates through `asyncio.gather` and fails the run as a
whole. -/
theorem claim_C7 :
    (∀ ts : List TaskInput,
        (∀ t ∈ ts, ∀ e, taskOutcome t ≠ .TaskException e) →
        download_all_lyrics ts = .ok (ts.map taskOutcome) ∧
        (ts.map taskOutcome).length = ts.length) ∧
    (∀ (ts : List TaskInput) (t : TaskInput) (e : String),
        t ∈ ts → taskOutcome t = .TaskException e →
        ∃ e', download_all_lyrics ts = .error e') := by
  constructor
  · intro ts h
    refine ⟨?_, by simp⟩
    unfold download_all_lyrics
    apply gatherOutcomes_ok
    intro o ho e
    rcases List.mem_map.mp ho with ⟨t, ht, rfl⟩
    exact h t ht e
  · intro ts t e ht he
    unfold download_all_lyrics
    apply gatherOutcomes_error (e := e)
    rw [← he]
    exact List.mem_map_of_mem taskOutcome ht

/-- C7 witness: a run whose sole task aborts on an unsupported container
still returns the full outcome list, and a run containing the failing task
of the counterexample errors out. -/
theorem claim_C7_witness :
    (download_all_lyrics [taskUnsupported]
        = .ok [.AbortedUnsupportedFormat] ∧
     ([taskUnsupported].map taskOutcome).length = 1) ∧
    ∃ e', download_all_lyrics [taskMissingTitle] = .error e' :=
  ⟨claim_C7.1 [taskUnsupported]
      (by
        intro t ht e
        have h1 : t = taskUnsupported := by simpa using ht
        subst h1
        have h2 : taskOutcome taskUnsupported = .AbortedUnsupportedFormat := by
          decide
        rw [h2]
        intro hcontra
        exact FetchOutcome.noConfusion hcontra),
   claim_C7.2 [taskMissingTitle] taskMissingTitle "IndexError"
      (List.mem_singleton.mpr rfl) (by decide)⟩

/-- C8: in every state a run can reach, at most `N` tasks are inside the
network-bound section (the semaphore-guarded HTTP session scope); a task
whose tag reading does not produce a tag tuple never issues a request, so
sidecar evaluation and tag reading happen outside the bounded section; and
the default bound is 10. -/
theorem claim_C8 :
    (∀ (n N : Nat) (s : SchedState), SchedReach n N s →
        countNet s.phases ≤ N) ∧
    (∀ (file : MediaPath) (load : MutagenFile) (site : Site) (fs : FS),
        (∀ tg, read_tags_from_file load ≠ .ok (some tg)) →
        (download_lyrics file load site fs).requests = []) ∧
    MAX_SIMULTANEOUS_REQUESTS = 10 := by
  refine ⟨?_, download_lyrics_requests_of_tags_fail, rfl⟩
  intro n N s h
  have := sched_inv h
  omega

/-- C8 witness: a reachable state of a 10-task run with bound 2 in which one
task has acquired the gate, and a request-free run over an unsupported
file. -/
theorem claim_C8_witness :
    countNet ((initState 10 2).phases.set 0 Phase.net) ≤ 2 ∧
    (download_lyrics ⟨"a", ".xyz"⟩ .other siteOK []).requests = [] :=
  ⟨claim_C8.1 10 2 ⟨(initState 10 2).phases.set 0 Phase.net, (initState 10 2).avail - 1⟩
      (SchedReach.step SchedReach.init
        (SchedStep.acquire (initState 10 2) 0 (by decide) (by decide))),
   claim_C8.2.1 ⟨"a", ".xyz"⟩ .other siteOK []
      (fun tg h => Option.noConfusion (Except.ok.inj h))⟩

/-- C9, counterexample: the direct write of `download_file` interrupted
after 15 bytes of a 21-byte body leaves a truncated sidecar whose first line
still contains both brackets, so it passes the PresentValid check while not
being the full content. -/
theorem counterexample_C9 :
    fsLookup (download_file_interrupted [] "song.lrc"
        (asciiBytes "[00:01.23]Hello\nWorld") 15) "song.lrc"
      = some (asciiBytes "[00:01.23]Hello") ∧
    sidecarValid (asciiBytes "[00:01.23]Hello") = true ∧
    asciiBytes "[00:01.23]Hello" ≠ asciiBytes "[00:01.23]Hello\nWorld" := by
  decide

/-- C9, as amended: the write is not atomic — it goes directly to the final
sidecar path, so an execution interrupted after `k` bytes leaves the
truncated body visible there, and there are bodies whose proper truncation
passes the PresentValid first-line bracket check. -/
theorem claim_C9 :
    (∀ (fs : FS) (dest : String) (body : List Nat) (k : Nat),
        fsLookup (download_file_interrupted fs dest body k) dest
          = some (body.take k)) ∧
    (∃ (body : List Nat) (k : Nat), k < body.length ∧
        sidecarValid (body.take k) = true ∧ body.take k ≠ body) := by
  constructor
  · intro fs dest body k
    exact fsLookup_fsWrite fs dest (body.take k)
  · exact ⟨asciiBytes "[00:01.23]Hello\nWorld", 15, by decide⟩

/-- C10: a corrupt sidecar is deleted during evaluation, before tag reading,
and the deletion is never rolled back — the task cannot end `SkippedExisting`,
and on every non-`Downloaded` ending the file is left with no sidecar at
all. -/
theorem claim_C10 :
    ∀ (file : MediaPath) (load : MutagenFile) (site : Site) (fs : FS)
      (content : List Nat),
      file.suffix ≠ ".lrc" →
      fsLookup fs (lrcPath file) = some content →
      sidecarValid content = false →
      (download_lyrics file load site fs).outcome ≠ .SkippedExisting ∧
      ((download_lyrics file load site fs).outcome ≠ .Downloaded →
        fsLookup (download_lyrics file load site fs).fs (lrcPath file) = none) := by
  intro file load site fs content hsuf hl hv
  rw [download_lyrics_corrupt file load site fs content hsuf hl hv]
  refine ⟨(proceedFetch_not_skip file load site _).1, fun hnd => ?_⟩
  rcases proceedFetch_cases file load site (fsErase fs (lrcPath file)) with
    ⟨hd, _⟩ | ⟨_, hfs⟩
  · exact absurd hd hnd
  · rw [hfs]
    exact fsLookup_fsErase fs (lrcPath file)

/-- C10 witness: a corrupt sidecar next to a file whose container is
unsupported — the fetch aborts, and the original corrupt sidecar is gone
rather than restored. -/
theorem claim_C10_witness :
    (download_lyrics sampleFile .other siteOK
        [("song.lrc", asciiBytes "junk")]).outcome ≠ .SkippedExisting ∧
    fsLookup (download_lyrics sampleFile .other siteOK
        [("song.lrc", asciiBytes "junk")]).fs (lrcPath sampleFile) = none :=
  ⟨(claim_C10 sampleFile .other siteOK [("song.lrc", asciiBytes "junk")]
      (asciiBytes "junk") (by decide) (by decide) (by decide)).1,
   (claim_C10 sampleFile .other siteOK [("song.lrc", asciiBytes "junk")]
      (asciiBytes "junk") (by decide) (by decide) (by decide)).2 (by decide)⟩
